import Mathlib

/-!
# Verification of the media upload/retry pipeline (`backend/utils/imageUploader.js`)

Shallow embedding of the `imageUploader` utility: the image transcoder
(`processImage`), the retrying upload client (`uploadWithRetry`), the upload
entry point (`uploadImageToCloudinary`) and the deletion entry point
(`deleteResourceFromCloudinary`).

External effects (the Cloudinary service, the Sharp codec) are modelled as
oracle functions passed to each embedded definition; each definition
additionally returns a trace of the remote calls it issued, so properties
about *which* calls happen (and with which bytes/options) are statable.
JavaScript errors are modelled as a message plus an optional `http_code`
field; a thrown error is an `Except.error`. JavaScript string operations
are modelled over `List Char` so that all definitions evaluate by kernel
reduction.
-/

set_option autoImplicit false

namespace ImageUploader

/-- Retry bound from the source: `const MAX_RETRIES = 3`. -/
def MAX_RETRIES : Nat := 3

/-- Retry delay in milliseconds from the source: `const RETRY_DELAY = 5000`. -/
def RETRY_DELAY : Nat := 5000

/-- A JavaScript error value: a message, and the optional `http_code`
property that Cloudinary errors carry (`new Error(msg)` has none). -/
structure JsError where
  message : String
  http_code : Option Nat := none
  deriving Repr, DecidableEq

/-- The fields of a Cloudinary upload result that the source reads or
returns; the whole object is passed through unchanged, so an abstract
record suffices. -/
structure UploadResult where
  secure_url : String := ""
  public_id : String := ""
  deriving Repr, DecidableEq

/-- Result object of `cloudinary.uploader.destroy` (opaque: returned
unchanged by the deletion entry point). -/
structure DestroyResult where
  result : String := ""
  deriving Repr, DecidableEq

/-! ## JavaScript string primitives, over `List Char` -/

/-- JavaScript `s.split(sep)` for a single-character separator:
`"".split('/')` is `[""]`, and every separator occurrence opens a new
(possibly empty) segment. -/
def splitOnChar (sep : Char) : List Char → List (List Char)
  | [] => [[]]
  | c :: cs =>
    let rest := splitOnChar sep cs
    if c == sep then [] :: rest
    else
      match rest with
      | r :: rs => (c :: r) :: rs
      | [] => [[c]]

/-- JavaScript `s.includes(sub)`: `sub` occurs contiguously in `s`. -/
def containsSub (s sub : List Char) : Bool :=
  match s with
  | [] => sub.isEmpty
  | _ :: tail => sub.isPrefixOf s || containsSub tail sub

/-! ## Deletion client (`deleteResourceFromCloudinary`, lines 263-309) -/

/-- The regex test `part.match(/^v\d+$/)` from line 282: the segment is a
`v` followed by one or more digits. -/
def isVersionSegment (s : List Char) : Bool :=
  match s with
  | 'v' :: ds => !ds.isEmpty && ds.all Char.isDigit
  | _ => false

/-- The regex replace `.replace(/\.[^/.]+$/, '')` from line 287: if the
string ends in a dot followed by one or more characters none of which is a
dot or a slash, that suffix (dot included) is removed; otherwise the string
is unchanged. -/
def stripExtension (s : List Char) : List Char :=
  let rcs := s.reverse
  let suffix := rcs.takeWhile (fun c => c != '.' && c != '/')
  match rcs.drop suffix.length with
  | '.' :: rs => if suffix.isEmpty then s else rs.reverse
  | _ => s

/-- Public-id extraction from a URL (lines 268-289): starting from
`publicId = url`, if the URL contains `'cloudinary.com'`, split on `/`,
locate the segment `'upload'`; when it exists with at least two further
segments, take everything after it, drop a leading `v<digits>` version
segment, join with `/` and strip the file extension. In every other case
the URL itself is the public id. -/
def extractPublicId (url : String) : String :=
  if containsSub url.toList "cloudinary.com".toList then
    let urlParts := splitOnChar '/' url.toList
    match urlParts.findIdx? (· == "upload".toList) with
    | some uploadIndex =>
      if uploadIndex + 2 < urlParts.length then
        let pathAfterUpload := urlParts.drop (uploadIndex + 1)
        let pathAfterUpload :=
          match pathAfterUpload with
          | p :: rest => if isVersionSegment p then rest else p :: rest
          | [] => []
        String.mk (stripExtension (List.intercalate ['/'] pathAfterUpload))
      else url
    | none => url
  else url

/-- A remote call issued by the deletion client: `cloudinary.uploader.destroy`
with its option object (`invalidate`, `resource_type`, `type`), or
`cloudinary.api.delete_derived_resources`. -/
inductive DeleteCall where
  | destroy (publicId : String) (invalidate : Bool) (resource_type ty : String)
  | deleteDerived (publicId : String)
  deriving Repr, DecidableEq

/-- `deleteResourceFromCloudinary(url)` (lines 263-309). `url` is `none` for
JavaScript `undefined`. The two remote operations are oracles that may
fail. Returns the function's outcome — `Except` so that a propagated throw
would be representable — together with the trace of remote calls issued.
`.ok none` models both the early `return` (undefined) and the
caught-error `return null`. -/
def deleteResourceFromCloudinary
    (destroy : String → Except JsError DestroyResult)
    (deleteDerived : String → Except JsError Unit)
    (url : Option String) :
    Except JsError (Option DestroyResult) × List DeleteCall :=
  match url with
  | none => (Except.ok none, [])
  | some u =>
    if u == "" then (Except.ok none, [])
    else
      let publicId := extractPublicId u
      let dcall := DeleteCall.destroy publicId true "auto" "upload"
      match destroy publicId with
      | Except.error _e => (Except.ok none, [dcall])
      | Except.ok result =>
        match deleteDerived publicId with
        | Except.error _e => (Except.ok none, [dcall, DeleteCall.deleteDerived publicId])
        | Except.ok _ => (Except.ok (some result), [dcall, DeleteCall.deleteDerived publicId])

/-! ## Image transcoder (`processImage`, lines 20-89) -/

/-- `IMAGE_CONFIG` (lines 10-17). -/
structure ImageConfig where
  maxWidth : Nat
  maxHeight : Nat
  quality : Nat
  format : String
  maxFileSize : Nat
  deriving Repr, DecidableEq

/-- The source's `IMAGE_CONFIG` constant: 1920×1080, quality 85, JPEG,
5 MB file-size bound. -/
def IMAGE_CONFIG : ImageConfig :=
  { maxWidth := 1920, maxHeight := 1080, quality := 85, format := "jpeg",
    maxFileSize := 5 * 1024 * 1024 }

/-- The metadata Sharp reports for a decoded image (the fields the source
reads). -/
structure Metadata where
  width : Nat
  height : Nat
  format : String := ""
  deriving Repr, DecidableEq

/-- The `options` object of `processImage`: each field may be absent, in
which case the destructuring defaults from `IMAGE_CONFIG` apply. -/
structure ProcessOptions where
  maxWidth : Option Nat := none
  maxHeight : Option Nat := none
  quality : Option Nat := none
  format : Option String := none
  deriving Repr, DecidableEq

/-- Oracle for the Sharp codec: decoding a buffer yields metadata or fails
with Sharp's error message; encoding is an arbitrary function of the pixel
dimensions and the JPEG parameters (quality, progressive, mozjpeg). -/
structure SharpEnv where
  decode : List Nat → Except String Metadata
  encode : Nat → Nat → Nat → Bool → Bool → List Nat

/-- Pixel dimensions produced by Sharp's
`resize(maxW, maxH, {fit: 'inside', withoutEnlargement: true})`: an image
already inside the box is untouched; otherwise it is scaled down preserving
aspect ratio until it fits, the binding side hitting its bound exactly and
the other side rounded to the nearest pixel. -/
def fitInside (w h maxW maxH : Nat) : Nat × Nat :=
  if w ≤ maxW ∧ h ≤ maxH then (w, h)
  else if maxW * h ≤ maxH * w then
    (maxW, (h * maxW * 2 + w) / (w * 2))
  else
    ((w * maxH * 2 + h) / (h * 2), maxH)

/-- The output of `processImage`: the encoded buffer together with the
pipeline facts the spec talks about — output pixel dimensions, whether the
resize step ran, and the JPEG encode parameters that were applied. -/
structure ProcessedImage where
  buffer : List Nat
  width : Nat
  height : Nat
  resized : Bool
  jpegQuality : Nat
  progressive : Bool
  mozjpeg : Bool
  deriving Repr, DecidableEq

/-- `processImage(fileBuffer, options)` (lines 20-89): decode (pixel limits
disabled — decoding does not fail on size), read metadata, resize only when
`metadata.width > maxWidth || metadata.height > maxHeight` (fit inside, no
enlargement), then always JPEG-encode with the given quality, progressive
scan and mozjpeg. A codec failure is rethrown as
`Image processing failed: <message>`. -/
def processImage (env : SharpEnv) (fileBuffer : List Nat)
    (options : ProcessOptions := {}) : Except String ProcessedImage :=
  match env.decode fileBuffer with
  | Except.error msg => Except.error ("Image processing failed: " ++ msg)
  | Except.ok metadata =>
    let maxWidth := options.maxWidth.getD IMAGE_CONFIG.maxWidth
    let maxHeight := options.maxHeight.getD IMAGE_CONFIG.maxHeight
    let quality := options.quality.getD IMAGE_CONFIG.quality
    let needsResize := metadata.width > maxWidth || metadata.height > maxHeight
    if needsResize then
      let dims := fitInside metadata.width metadata.height maxWidth maxHeight
      Except.ok
        { buffer := env.encode dims.1 dims.2 quality true true
          width := dims.1, height := dims.2, resized := true
          jpegQuality := quality, progressive := true, mozjpeg := true }
    else
      Except.ok
        { buffer := env.encode metadata.width metadata.height quality true true
          width := metadata.width, height := metadata.height, resized := false
          jpegQuality := quality, progressive := true, mozjpeg := true }

/-! ## Upload client with retry (`uploadWithRetry`, lines 91-139) -/

/-- The upload option object. Every field is optional: a JavaScript object
simply lacks the keys that were never set. `quality` is listed because the
spec claims a quality default; the source never sets it. -/
structure UploadOptions where
  resource_type : Option String := none
  folder : Option String := none
  use_filename : Option Bool := none
  unique_filename : Option Bool := none
  overwrite : Option Bool := none
  invalidate : Option Bool := none
  upload_async : Option Bool := none
  quality : Option String := none
  deriving Repr, DecidableEq

/-- The option spread at lines 95-103: caller options plus
`use_filename: true`, `unique_filename: true`, `overwrite: false`,
`invalidate: true`, `async: true` (the later keys win). -/
def assembleOptions (options : UploadOptions) : UploadOptions :=
  { options with
    use_filename := some true
    unique_filename := some true
    overwrite := some false
    invalidate := some true
    upload_async := some true }

/-- A multer-style file object: the fields of `file` the source reads. -/
structure File where
  buffer : Option (List Nat) := none
  path : Option String := none
  mimetype : Option String := none
  size : Nat := 0
  originalname : String := ""
  deriving Repr, DecidableEq

/-- One attempt of `uploadWithRetry` (lines 93-128): the stream is created
with the assembled options, then the bytes come from `file.buffer`, or from
reading `file.path`, or the promise rejects with `Invalid file format`.
`svc` is the Cloudinary oracle, indexed by the attempt number so distinct
attempts may behave differently; `readPath` models the filesystem. Returns
the outcome and the (bytes, options) submissions made. -/
def attemptOnce (svc : List Nat → UploadOptions → Nat → Except JsError UploadResult)
    (readPath : String → List Nat) (file : File) (options : UploadOptions)
    (retryCount : Nat) :
    Except JsError UploadResult × List (List Nat × UploadOptions) :=
  match file.buffer with
  | some b => (svc b (assembleOptions options) retryCount, [(b, assembleOptions options)])
  | none =>
    match file.path with
    | some p =>
      let b := readPath p
      (svc b (assembleOptions options) retryCount, [(b, assembleOptions options)])
    | none => (Except.error { message := "Invalid file format" }, [])

/-- `uploadWithRetry(file, options, retryCount)` (lines 91-139): attempt the
upload; on failure, while `retryCount < MAX_RETRIES`, wait `RETRY_DELAY`
milliseconds and recurse with `retryCount + 1`, otherwise rethrow the last
error. Returns the outcome, the list of submissions (bytes and options of
each attempt, in order), and the list of waits performed (ms). -/
def uploadWithRetry (svc : List Nat → UploadOptions → Nat → Except JsError UploadResult)
    (readPath : String → List Nat) (file : File) (options : UploadOptions)
    (retryCount : Nat) :
    Except JsError UploadResult × List (List Nat × UploadOptions) × List Nat :=
  let attempt := attemptOnce svc readPath file options retryCount
  match attempt.1 with
  | Except.ok r => (Except.ok r, attempt.2, [])
  | Except.error e =>
    if _h : retryCount < MAX_RETRIES then
      let rest := uploadWithRetry svc readPath file options (retryCount + 1)
      (rest.1, attempt.2 ++ rest.2.1, RETRY_DELAY :: rest.2.2)
    else
      (Except.error e, attempt.2, [])
termination_by MAX_RETRIES - retryCount
decreasing_by simp [MAX_RETRIES] at _h ⊢; omega

/-! ## Upload entry point (`uploadImageToCloudinary`, lines 141-260) -/

/-- JavaScript whitespace trim (`folder.trim()`): drop whitespace from both
ends. -/
def jsTrim (s : List Char) : List Char :=
  ((s.dropWhile Char.isWhitespace).reverse.dropWhile Char.isWhitespace).reverse

/-- The guard at line 209:
`folder && folder !== 'undefined' && folder.trim() !== ''`.
`none` models an absent (`undefined`) argument; `some ""` is falsy too. -/
def folderUsable (folder : Option String) : Bool :=
  match folder with
  | none => false
  | some s => s != "" && s != "undefined" && !(jsTrim s.toList).isEmpty

/-- Line 163: `file.mimetype && file.mimetype.startsWith('video/')`. -/
def isVideoFile (file : File) : Bool :=
  match file.mimetype with
  | none => false
  | some m => m != "" && "video/".toList.isPrefixOf m.toList

/-- The minimal first-attempt options built at lines 166-168: only
`resource_type`, which is `video` for videos and `auto` otherwise. -/
def firstOptions (file : File) : UploadOptions :=
  { resource_type := some (if isVideoFile file then "video" else "auto") }

/-- `(file.size / (1024 * 1024)).toFixed(2)`: megabytes with two decimal
places, rounding half up (a rational-arithmetic model of the JS float
rounding). -/
def mbToFixed2 (size : Nat) : String :=
  let hundredths := (size * 100 + 524288) / 1048576
  let frac := hundredths % 100
  toString (hundredths / 100) ++ "." ++
    (if frac < 10 then "0" ++ toString frac else toString frac)

/-- The outer catch of `uploadImageToCloudinary` (lines 249-259): a caught
error is replaced by a new `Error` — the file-too-large message when
`error.http_code === 413`, otherwise
`Failed to upload file: <error.message>`. -/
def wrapUploadError (fileSize : Nat) (e : JsError) : JsError :=
  if e.http_code == some 413 then
    { message := "File too large for upload (" ++ mbToFixed2 fileSize ++
        "MB). Cloudinary free accounts have upload limits. Please try a smaller file or upgrade your Cloudinary account." }
  else
    { message := "Failed to upload file: " ++ e.message }

/-- Outcome of the upload entry point: the returned result or thrown error,
plus the trace of `upload_stream` calls issued — for each call, the option
object it was created with and the bytes streamed into it. -/
structure UploadOutcome where
  result : Except JsError UploadResult
  calls : List (UploadOptions × List Nat)
  deriving Repr

/-- `uploadImageToCloudinary(file, folder, height, quality)` (lines
141-260): validate that `file.buffer` is a buffer (else throw
`Invalid file buffer`, caught and wrapped by the outer catch); attempt a
minimal no-folder upload of `file.buffer`; on success return the result; on
failure, when the folder guard holds, mutate the options with the folder
and attempt once more, returning its result or its wrapped error; otherwise
rethrow the first error, wrapped by the outer catch. `height` and `quality`
are accepted and never used, as in the source. `svc` is the Cloudinary
oracle indexed by attempt number (0 = no-folder attempt, 1 = folder
attempt). -/
def uploadImageToCloudinary
    (svc : Nat → UploadOptions → List Nat → Except JsError UploadResult)
    (file : File) (folder : Option String)
    (_height _quality : Option Nat := none) : UploadOutcome :=
  match file.buffer with
  | none =>
    { result := Except.error (wrapUploadError file.size { message := "Invalid file buffer" })
      calls := [] }
  | some buf =>
    let uploadOptions := firstOptions file
    match svc 0 uploadOptions buf with
    | Except.ok r => { result := Except.ok r, calls := [(uploadOptions, buf)] }
    | Except.error firstError =>
      if folderUsable folder then
        let optionsWithFolder := { uploadOptions with folder := folder }
        match svc 1 optionsWithFolder buf with
        | Except.ok r =>
          { result := Except.ok r
            calls := [(uploadOptions, buf), (optionsWithFolder, buf)] }
        | Except.error e =>
          { result := Except.error (wrapUploadError file.size e)
            calls := [(uploadOptions, buf), (optionsWithFolder, buf)] }
      else
        { result := Except.error (wrapUploadError file.size firstError)
          calls := [(uploadOptions, buf)] }

/-! ## Concrete oracles and inputs used by witnesses and counterexamples -/

/-- A 6 MB PNG upload request: image MIME type, size above both the 5 MB
and the 1 MB thresholds the spec names. -/
def exImageFile : File :=
  { buffer := some [1, 2, 3], mimetype := some "image/png",
    size := 6 * 1024 * 1024, originalname := "photo.png" }

/-- A service that accepts every upload. -/
def exSvcOk : Nat → UploadOptions → List Nat → Except JsError UploadResult :=
  fun _ _ _ => Except.ok { secure_url := "https://cdn/x", public_id := "x" }

/-- A service that rejects every upload with a plain error. -/
def exSvcErr : Nat → UploadOptions → List Nat → Except JsError UploadResult :=
  fun _ _ _ => Except.error { message := "boom" }

/-- A service that rejects the first (no-folder) attempt and accepts the
second. -/
def exSvcSecondOk : Nat → UploadOptions → List Nat → Except JsError UploadResult :=
  fun k _ _ =>
    if k == 0 then Except.error { message := "boom" }
    else Except.ok { secure_url := "https://cdn/y", public_id := "y" }

/-- A permanently failing service for the retry client, whose error names
the attempt number. -/
def exRetrySvc : List Nat → UploadOptions → Nat → Except JsError UploadResult :=
  fun _ _ k => Except.error { message := "err" ++ toString k }

/-- The per-attempt errors produced by `exRetrySvc`. -/
def exErrF : Nat → JsError := fun k => { message := "err" ++ toString k }

/-- A trivial filesystem oracle. -/
def exReadPath : String → List Nat := fun _ => []

/-- A Sharp oracle decoding every buffer as a 100×50 PNG and encoding to
the fixed buffer `[9, 9]` (distinct from `exImageFile`'s bytes). -/
def exSharpEnv : SharpEnv :=
  { decode := fun _ => Except.ok { width := 100, height := 50, format := "png" }
    encode := fun _ _ _ _ _ => [9, 9] }

/-- A destroy oracle that always succeeds. -/
def exDestroyOk : String → Except JsError DestroyResult :=
  fun _ => Except.ok { result := "ok" }

/-- A derived-resource purge oracle that always succeeds. -/
def exDerivedOk : String → Except JsError Unit := fun _ => Except.ok ()

/-- The hosted URL named by the claim: its host is `res.example.com`. -/
def exUrlClaim : String :=
  "https://res.example.com/cloud/image/upload/v1700000000/folder/sub/name.png"

/-- The same path on an actual `cloudinary.com` host. -/
def exUrlCloudinary : String :=
  "https://res.cloudinary.com/cloud/image/upload/v1700000000/folder/sub/name.png"

/-- A caller-supplied base option object. -/
def exBaseOptions : UploadOptions := { resource_type := some "auto" }

end ImageUploader

open ImageUploader

/-! ## Claims -/

/-- C5 (counterexample): on the exact URL the claim names — host
`res.example.com`, which does not contain `cloudinary.com` — the deletion
entry point does not derive `folder/sub/name`: it issues the delete call
with the whole URL as the identifier. -/
theorem deleteResource_example_url_counterexample :
    (deleteResourceFromCloudinary exDestroyOk exDerivedOk (some exUrlClaim)).2 =
      [DeleteCall.destroy exUrlClaim true "auto" "upload",
        DeleteCall.deleteDerived exUrlClaim] ∧
    extractPublicId exUrlClaim ≠ "folder/sub/name" := by
  decide

/-- C5 (amended): identifier derivation — locate `upload`, drop the
`v<digits>` version segment, join, strip the extension — happens only for
URLs containing `cloudinary.com`: on
`https://res.cloudinary.com/cloud/image/upload/v1700000000/folder/sub/name.png`
the entry point derives `folder/sub/name` and issues the delete call with
it, while the claim's `res.example.com` URL is passed through whole. -/
theorem deleteResource_cloudinary_url_publicId :
    extractPublicId exUrlCloudinary = "folder/sub/name" ∧
    (deleteResourceFromCloudinary exDestroyOk exDerivedOk (some exUrlCloudinary)).2 =
      [DeleteCall.destroy "folder/sub/name" true "auto" "upload",
        DeleteCall.deleteDerived "folder/sub/name"] ∧
    extractPublicId exUrlClaim = exUrlClaim := by
  decide

/-- C6 (confirmed): whatever the URL and however the destroy or
derived-resource purge oracles fail, `deleteResourceFromCloudinary` never
propagates an error: it always returns normally (with `none` standing for
the `return null` / early `return`). -/
theorem deleteResource_never_throws
    (destroy : String → Except JsError DestroyResult)
    (deleteDerived : String → Except JsError Unit)
    (url : Option String) :
    ∃ v, (deleteResourceFromCloudinary destroy deleteDerived url).1 = Except.ok v := by
  unfold deleteResourceFromCloudinary
  cases url with
  | none => exact ⟨none, rfl⟩
  | some u =>
    by_cases hu : u == ""
    · simp only [hu, if_pos]
      exact ⟨none, rfl⟩
    · simp only [hu, if_neg, Bool.false_eq_true, not_false_iff]
      cases destroy (extractPublicId u) with
      | error e => exact ⟨none, rfl⟩
      | ok r =>
        cases deleteDerived (extractPublicId u) with
        | error e => exact ⟨none, rfl⟩
        | ok v => exact ⟨some r, rfl⟩

/-- C9 (confirmed): with `undefined` (`none`) or the empty string, the
deletion entry point returns immediately and issues no remote call at all,
whatever the oracles would do. -/
theorem deleteResource_empty_noop
    (destroy : String → Except JsError DestroyResult)
    (deleteDerived : String → Except JsError Unit) :
    deleteResourceFromCloudinary destroy deleteDerived none = (Except.ok none, []) ∧
    deleteResourceFromCloudinary destroy deleteDerived (some "") = (Except.ok none, []) := by
  constructor
  · rfl
  · rfl

/-- C7 (counterexample): the assembled options of a concrete upload have
`overwrite` disabled (the claim says enabled) and no quality at all (the
claim says `auto:good` is defaulted in); and the entry point's first-attempt
options for a concrete request contain no folder (the claim says folder is
always included). -/
theorem upload_options_counterexample :
    (assembleOptions exBaseOptions).overwrite ≠ some true ∧
    (assembleOptions exBaseOptions).quality ≠ some "auto:good" ∧
    (firstOptions exImageFile).folder = none := by
  decide

/-- C7 (amended): the retry client's assembled options always add
filename-reuse and uniqueness flags, `overwrite` *disabled*, CDN
invalidation and async mode to the caller's options, leaving resource
kind, folder and quality as the caller set them (no `auto:good` default);
and the entry point's first-attempt options consist of the resource kind
alone — `video` for video MIME types, otherwise `auto` — with no folder
and no quality. -/
theorem upload_options_contents (o : UploadOptions) (file : File) :
    (assembleOptions o).use_filename = some true ∧
    (assembleOptions o).unique_filename = some true ∧
    (assembleOptions o).overwrite = some false ∧
    (assembleOptions o).invalidate = some true ∧
    (assembleOptions o).upload_async = some true ∧
    (assembleOptions o).resource_type = o.resource_type ∧
    (assembleOptions o).folder = o.folder ∧
    (assembleOptions o).quality = o.quality ∧
    (firstOptions file).resource_type =
      some (if isVideoFile file then "video" else "auto") ∧
    (firstOptions file).folder = none ∧
    (firstOptions file).quality = none := by
  refine ⟨rfl, rfl, rfl, rfl, rfl, rfl, rfl, rfl, rfl, rfl, rfl⟩

/-- C8 (confirmed): when the decoded image already fits the (defaulted)
bounds, `processImage` does not resize — the output dimensions are the
intrinsic ones — and still runs the JPEG re-encode with the given quality,
progressive scan and mozjpeg. -/
theorem processImage_noResize_reencode
    (env : SharpEnv) (buf : List Nat) (opts : ProcessOptions) (m : Metadata)
    (hdec : env.decode buf = Except.ok m)
    (hw : m.width ≤ opts.maxWidth.getD IMAGE_CONFIG.maxWidth)
    (hh : m.height ≤ opts.maxHeight.getD IMAGE_CONFIG.maxHeight) :
    processImage env buf opts =
      Except.ok
        { buffer := env.encode m.width m.height
            (opts.quality.getD IMAGE_CONFIG.quality) true true
          width := m.width, height := m.height, resized := false
          jpegQuality := opts.quality.getD IMAGE_CONFIG.quality
          progressive := true, mozjpeg := true } := by
  unfold processImage
  rw [hdec]
  simp only [Nat.not_lt.mpr hw, Nat.not_lt.mpr hh]
  simp [Nat.not_lt.mpr hw, Nat.not_lt.mpr hh]

/-- C8 witness: a 100×50 image against the 1920×1080 defaults is re-encoded
without resizing. -/
theorem processImage_noResize_reencode_witness :
    processImage exSharpEnv [1, 2, 3] {} =
      Except.ok
        { buffer := [9, 9], width := 100, height := 50, resized := false
          jpegQuality := 85, progressive := true, mozjpeg := true } :=
  processImage_noResize_reencode exSharpEnv [1, 2, 3] {}
    { width := 100, height := 50, format := "png" } rfl (by decide) (by decide)

/-- C1 (counterexample): a 6 MB PNG request — image MIME type, above both
thresholds — is uploaded by the entry point with its original bytes
`[1, 2, 3]`; the transcoder, on those bytes, would have produced the
different buffer `[9, 9]`. `processImage` is never invoked by
`uploadImageToCloudinary`. -/
theorem upload_transcoder_counterexample :
    exImageFile.mimetype = some "image/png" ∧
    exImageFile.size > 5 * 1024 * 1024 ∧
    (uploadImageToCloudinary exSvcOk exImageFile (some "images") none none).calls =
      [(firstOptions exImageFile, [1, 2, 3])] ∧
    (processImage exSharpEnv [1, 2, 3]).map ProcessedImage.buffer = Except.ok [9, 9] ∧
    ([1, 2, 3] : List Nat) ≠ [9, 9] := by
  refine ⟨rfl, by decide, rfl, rfl, by decide⟩

/-- C1 (amended): the upload entry point never invokes the transcoder: for
every service, request and folder, the bytes of every `upload_stream` call
it issues are exactly the original `file.buffer` bytes. -/
theorem upload_never_transcodes
    (svc : Nat → UploadOptions → List Nat → Except JsError UploadResult)
    (file : File) (folder : Option String) (hh qq : Option Nat) (b : List Nat)
    (hb : file.buffer = some b) :
    (uploadImageToCloudinary svc file folder hh qq).calls.map Prod.snd =
      List.replicate (uploadImageToCloudinary svc file folder hh qq).calls.length b := by
  cases h0 : svc 0 (firstOptions file) b with
  | ok r => simp [uploadImageToCloudinary, hb, h0]
  | error e =>
    cases hf : folderUsable folder with
    | true =>
      cases h1 : svc 1 { firstOptions file with folder := folder } b with
      | ok r => simp [uploadImageToCloudinary, hb, h0, hf, h1, List.replicate]
      | error e2 => simp [uploadImageToCloudinary, hb, h0, hf, h1, List.replicate]
    | false => simp [uploadImageToCloudinary, hb, h0, hf, List.replicate]

/-- C1 witness: on the 6 MB PNG request, every uploaded payload is the
original buffer. -/
theorem upload_never_transcodes_witness :
    (uploadImageToCloudinary exSvcOk exImageFile (some "images") none none).calls.map
        Prod.snd =
      List.replicate
        (uploadImageToCloudinary exSvcOk exImageFile (some "images") none none).calls.length
        [1, 2, 3] :=
  upload_never_transcodes exSvcOk exImageFile (some "images") none none [1, 2, 3] rfl

/-- C3 (counterexample): with `folder = ""` and a first attempt failing
with the error `boom`, only one attempt is made, but the entry point does
not raise that error object unchanged: it raises a new error with message
`Failed to upload file: boom`. -/
theorem upload_noFolder_error_counterexample :
    exSvcErr 0 (firstOptions exImageFile) [1, 2, 3] = Except.error { message := "boom" } ∧
    (uploadImageToCloudinary exSvcErr exImageFile (some "") none none).calls.length = 1 ∧
    (uploadImageToCloudinary exSvcErr exImageFile (some "") none none).result =
      Except.error { message := "Failed to upload file: boom" } ∧
    ({ message := "Failed to upload file: boom" } : JsError) ≠ { message := "boom" } := by
  refine ⟨rfl, rfl, rfl, by decide⟩

/-- C3 (amended): with `folder = ""` and a failing first attempt, no second
attempt is made, and the entry point raises the first attempt's error
wrapped by the outer catch — `Failed to upload file: <message>`, or the
file-too-large message when the error carries `http_code` 413 — rather
than the original error object verbatim. -/
theorem upload_noFolder_wrapped_error
    (svc : Nat → UploadOptions → List Nat → Except JsError UploadResult)
    (file : File) (hh qq : Option Nat) (b : List Nat) (e1 : JsError)
    (hb : file.buffer = some b)
    (he1 : svc 0 (firstOptions file) b = Except.error e1) :
    uploadImageToCloudinary svc file (some "") hh qq =
      { result := Except.error (wrapUploadError file.size e1)
        calls := [(firstOptions file, b)] } := by
  have hf : folderUsable (some "") = false := by decide
  simp [uploadImageToCloudinary, hb, he1, hf]

/-- C3 witness: the wrapped error for a concrete failing service. -/
theorem upload_noFolder_wrapped_error_witness :
    uploadImageToCloudinary exSvcErr exImageFile (some "") none none =
      { result := Except.error { message := "Failed to upload file: boom" }
        calls := [(firstOptions exImageFile, [1, 2, 3])] } :=
  upload_noFolder_wrapped_error exSvcErr exImageFile none none [1, 2, 3]
    { message := "boom" } rfl rfl

/-- C4 (confirmed): with a usable (non-blank, non-`"undefined"`) folder and
a failing first attempt, exactly one second attempt is made, its options
are the first attempt's options with the folder added, and its outcome —
the success value, or the failure as wrapped by the outer catch —
determines the entry point's outcome. -/
theorem upload_folder_second_attempt
    (svc : Nat → UploadOptions → List Nat → Except JsError UploadResult)
    (file : File) (folder : Option String) (hh qq : Option Nat)
    (b : List Nat) (e1 : JsError)
    (hb : file.buffer = some b)
    (hfo : folderUsable folder = true)
    (he1 : svc 0 (firstOptions file) b = Except.error e1) :
    (uploadImageToCloudinary svc file folder hh qq).calls =
      [(firstOptions file, b), ({ firstOptions file with folder := folder }, b)] ∧
    (uploadImageToCloudinary svc file folder hh qq).result =
      (match svc 1 { firstOptions file with folder := folder } b with
        | Except.ok r => Except.ok r
        | Except.error e => Except.error (wrapUploadError file.size e)) := by
  cases h1 : svc 1 { firstOptions file with folder := folder } b with
  | ok r => simp [uploadImageToCloudinary, hb, he1, hfo, h1]
  | error e => simp [uploadImageToCloudinary, hb, he1, hfo, h1]

/-- C4 witness: folder `course-101`, first attempt fails, second succeeds
and its result is returned. -/
theorem upload_folder_second_attempt_witness :
    (uploadImageToCloudinary exSvcSecondOk exImageFile (some "course-101") none none).calls =
      [(firstOptions exImageFile, [1, 2, 3]),
        ({ firstOptions exImageFile with folder := some "course-101" }, [1, 2, 3])] ∧
    (uploadImageToCloudinary exSvcSecondOk exImageFile (some "course-101") none none).result =
      Except.ok { secure_url := "https://cdn/y", public_id := "y" } :=
  upload_folder_second_attempt exSvcSecondOk exImageFile (some "course-101") none none
    [1, 2, 3] { message := "boom" } rfl (by decide) rfl

/-- C10 (confirmed): a folder that is literally `"undefined"`, or trims to
the empty string, makes the entry point behave exactly as when no folder
was supplied at all — the two runs are equal as functions of the same
service and file. -/
theorem upload_undefined_folder_like_none
    (svc : Nat → UploadOptions → List Nat → Except JsError UploadResult)
    (file : File) (hh qq : Option Nat) (s : String)
    (hs : s = "undefined" ∨ jsTrim s.toList = []) :
    uploadImageToCloudinary svc file (some s) hh qq =
      uploadImageToCloudinary svc file none hh qq := by
  have hf : folderUsable (some s) = false := by
    rcases hs with h | h
    · subst h; decide
    · simp only [folderUsable]
      simp only [Bool.and_eq_false_iff]
      right
      simp [String.toList] at h
      simp [h]
  have hf0 : folderUsable none = false := rfl
  cases hb : file.buffer with
  | none => simp [uploadImageToCloudinary, hb]
  | some b =>
    cases h0 : svc 0 (firstOptions file) b with
    | ok r => simp [uploadImageToCloudinary, hb, h0]
    | error e => simp [uploadImageToCloudinary, hb, h0, hf, hf0]

/-- C10 witness: folder `"undefined"` behaves as no folder. -/
theorem upload_undefined_folder_like_none_witness :
    uploadImageToCloudinary exSvcErr exImageFile (some "undefined") none none =
      uploadImageToCloudinary exSvcErr exImageFile none none none :=
  upload_undefined_folder_like_none exSvcErr exImageFile none none "undefined" (Or.inl rfl)

/-- C2 (confirmed): when every attempt of the retry client fails, exactly
four attempts are made (the initial one plus `MAX_RETRIES = 3` retries),
every attempt submits the same bytes and the same assembled options, a
`RETRY_DELAY` (5000 ms) wait precedes each retry, and the error of the
final attempt (attempt index 3) is what propagates. -/
theorem uploadWithRetry_four_attempts
    (svc : List Nat → UploadOptions → Nat → Except JsError UploadResult)
    (readPath : String → List Nat) (file : File) (options : UploadOptions)
    (errF : Nat → JsError) (b : List Nat)
    (hb : file.buffer = some b)
    (hfail : ∀ bytes o k, svc bytes o k = Except.error (errF k)) :
    uploadWithRetry svc readPath file options 0 =
      (Except.error (errF 3),
        List.replicate 4 (b, assembleOptions options),
        [RETRY_DELAY, RETRY_DELAY, RETRY_DELAY]) := by
  have e3 : uploadWithRetry svc readPath file options 3 =
      (Except.error (errF 3), [(b, assembleOptions options)], []) := by
    unfold uploadWithRetry
    simp [attemptOnce, hb, hfail, MAX_RETRIES]
  have e2 : uploadWithRetry svc readPath file options 2 =
      (Except.error (errF 3),
        [(b, assembleOptions options), (b, assembleOptions options)],
        [RETRY_DELAY]) := by
    unfold uploadWithRetry
    simp [attemptOnce, hb, hfail, MAX_RETRIES, e3]
  have e1 : uploadWithRetry svc readPath file options 1 =
      (Except.error (errF 3),
        [(b, assembleOptions options), (b, assembleOptions options),
          (b, assembleOptions options)],
        [RETRY_DELAY, RETRY_DELAY]) := by
    unfold uploadWithRetry
    simp [attemptOnce, hb, hfail, MAX_RETRIES, e2]
  unfold uploadWithRetry
  simp [attemptOnce, hb, hfail, MAX_RETRIES, e1, List.replicate]

/-- C2 witness: a permanently failing service produces the attempt-3 error,
four identical submissions and three 5-second waits. -/
theorem uploadWithRetry_four_attempts_witness :
    uploadWithRetry exRetrySvc exReadPath exImageFile exBaseOptions 0 =
      (Except.error (exErrF 3),
        List.replicate 4 ([1, 2, 3], assembleOptions exBaseOptions),
        [RETRY_DELAY, RETRY_DELAY, RETRY_DELAY]) :=
  uploadWithRetry_four_attempts exRetrySvc exReadPath exImageFile exBaseOptions exErrF
    [1, 2, 3] rfl (fun _ _ _ => rfl)
